import Mathlib

/-!
Verification of the `InternalApiGateway` construct
(`src/internal-apigateway.ts`): a shallow embedding of the configuration
record, the IAM policy document, the REST API resource and the base path
mappings that the constructor emits, followed by theorems about the
emitted resource graph.
-/

namespace CdkInternalGateway

/-- A custom domain reference (`apigateway.IDomainName`). Its `path` field
models the string identity the construct library gives the object when it
is interpolated into a template literal (the construct path), which is what
`id` derivation for the base path mappings uses. -/
structure IDomainName where
  path : String
deriving DecidableEq

/-- A VPC interface endpoint reference (`ec2.IInterfaceVpcEndpoint`),
carrying the endpoint identifier read by the policy statements. -/
structure IInterfaceVpcEndpoint where
  vpcEndpointId : String
deriving DecidableEq

/-- The configuration record `InternalApiGatewayProps` from the source:
`stage`, `domains` and `vpcEndpoint` are required fields; the other three
are optional (`Option`). -/
structure InternalApiGatewayProps where
  stage : String
  domains : List IDomainName
  vpcEndpoint : IInterfaceVpcEndpoint
  apiBasePathMappingPath : Option String
  binaryMediaTypes : Option (List String)
  minimumCompressionSize : Option Nat
deriving DecidableEq

/-- IAM statement effect (`iam.Effect`). -/
inductive Effect where
  | DENY
  | ALLOW
deriving DecidableEq

/-- IAM principal; the source only uses `iam.AnyPrincipal`. -/
inductive Principal where
  | AnyPrincipal
deriving DecidableEq

/-- IAM condition operators used by the source. -/
inductive ConditionOperator where
  | StringEquals
  | StringNotEquals
deriving DecidableEq

/-- One condition entry: an operator applied to a context key and an
expected value, mirroring the one-operator, one-key condition objects of
the source. -/
structure Condition where
  op : ConditionOperator
  key : String
  value : String
deriving DecidableEq

/-- Semantics of a condition, given the actual value the request context
carries for the condition key. -/
def Condition.holdsOn (c : Condition) (actual : String) : Prop :=
  match c.op with
  | ConditionOperator.StringEquals => actual = c.value
  | ConditionOperator.StringNotEquals => actual ≠ c.value

/-- An `iam.PolicyStatement` as the source builds it. -/
structure PolicyStatement where
  effect : Effect
  principals : List Principal
  actions : List String
  resources : List String
  condition : Condition
deriving DecidableEq

/-- An `iam.PolicyDocument`: a list of statements. -/
structure PolicyDocument where
  statements : List PolicyStatement
deriving DecidableEq

/-- API gateway endpoint types (`apigateway.EndpointType`). -/
inductive EndpointType where
  | EDGE
  | REGIONAL
  | PRIVATE
deriving DecidableEq

/-- A deployment stage, carrying its stage name. -/
structure Stage where
  stageName : String
deriving DecidableEq

/-- The `apigateway.RestApi` resource with the properties the source
sets: construct id, description, endpoint configuration, resource policy,
deploy options stage name, the deployment stage the library derives from
it, and the two pass-through optional fields. -/
structure RestApi where
  constructId : String
  description : String
  endpointTypes : List EndpointType
  vpcEndpoints : List IInterfaceVpcEndpoint
  policy : PolicyDocument
  deployStageName : String
  deploymentStage : Stage
  binaryMediaTypes : Option (List String)
  minimumCompressionSize : Option Nat
deriving DecidableEq

/-- An `apigateway.BasePathMapping` resource: construct id, the domain,
the REST API object it references, the stage object it references, and the
base path. -/
structure BasePathMapping where
  constructId : String
  domainName : IDomainName
  restApi : RestApi
  stage : Stage
  basePath : String
deriving DecidableEq

/-- JavaScript truthiness of an optional string: `undefined` and the empty
string are falsy, every other string is truthy. -/
def jsTruthyString : Option String → Bool
  | none => false
  | some s => s != ""

/-- The ternary `props.apiBasePathMappingPath ? props.apiBasePathMappingPath
: ""` of the source, selecting each mapping its base path. -/
def ternaryBasePath (o : Option String) : String :=
  if jsTruthyString o then o.getD "" else ""

/-- The construct id the source gives each base path mapping, the template
literal prepending a dash to the domain item as stringified by the
construct library. -/
def basePathMappingId (d : IDomainName) : String :=
  "-" ++ d.path

/-- The `apiResourcePolicy` document the constructor builds: a DENY
statement conditioned on `StringNotEquals` over `aws:sourceVpce` and an
ALLOW statement conditioned on `StringEquals` over the same key, both for
any principal, action `execute-api:Invoke` and resource
`execute-api:/*/*/*`. -/
def apiResourcePolicy (props : InternalApiGatewayProps) : PolicyDocument :=
  { statements :=
      [ { effect := Effect.DENY
          principals := [Principal.AnyPrincipal]
          actions := ["execute-api:Invoke"]
          resources := ["execute-api:/*/*/*"]
          condition :=
            { op := ConditionOperator.StringNotEquals
              key := "aws:sourceVpce"
              value := props.vpcEndpoint.vpcEndpointId } },
        { effect := Effect.ALLOW
          principals := [Principal.AnyPrincipal]
          actions := ["execute-api:Invoke"]
          resources := ["execute-api:/*/*/*"]
          condition :=
            { op := ConditionOperator.StringEquals
              key := "aws:sourceVpce"
              value := props.vpcEndpoint.vpcEndpointId } } ] }

/-- The `RestApi` the constructor creates as `this.apiGateway`. -/
def mkApiGateway (id : String) (props : InternalApiGatewayProps) : RestApi :=
  { constructId := "Gateway-" ++ id
    description := "This service serves an internal api gateway"
    endpointTypes := [EndpointType.PRIVATE]
    vpcEndpoints := [props.vpcEndpoint]
    policy := apiResourcePolicy props
    deployStageName := props.stage
    deploymentStage := { stageName := props.stage }
    binaryMediaTypes := props.binaryMediaTypes
    minimumCompressionSize := props.minimumCompressionSize }

/-- The resource graph the `InternalApiGateway` constructor emits: the
gateway handle assigned to the protected field, and the base path mappings
created by the loop over `props.domains`. -/
structure InternalApiGateway where
  apiGateway : RestApi
  basePathMappings : List BasePathMapping
deriving DecidableEq

/-- The constructor body of `InternalApiGateway`: build the policy and the
gateway, then one base path mapping per domain, in input order, each
referencing the gateway object, its deployment stage, and the shared base
path. -/
def InternalApiGateway.construct (id : String)
    (props : InternalApiGatewayProps) : InternalApiGateway :=
  let gw := mkApiGateway id props
  { apiGateway := gw
    basePathMappings :=
      props.domains.map fun domainItem =>
        { constructId := basePathMappingId domainItem
          domainName := domainItem
          restApi := gw
          stage := gw.deploymentStage
          basePath := ternaryBasePath props.apiBasePathMappingPath } }

/-- Helper: the base path mapping construct id is injective on domains, so
distinct domains get distinct ids and equal domains get equal ids. -/
theorem basePathMappingId_inj (d1 d2 : IDomainName) :
    basePathMappingId d1 = basePathMappingId d2 ↔ d1 = d2 := by
  constructor
  · intro h
    have hd := congrArg String.data h
    simp [basePathMappingId, String.data_append] at hd
    cases d1
    cases d2
    simp only [IDomainName.mk.injEq]
    exact String.ext hd
  · intro h
    rw [h]

/-- Claim C1: for every constructor input, the policy document of the
emitted gateway has exactly two statements, both for any principal on
action execute-api:Invoke over the same wildcard resource pattern,
differing only in effect (DENY versus ALLOW) and in their conditions,
which are StringNotEquals versus StringEquals over the same key
aws:sourceVpce compared against the configured endpoint identifier, and
which are logical negations of each other for every actual source
endpoint value. -/
theorem policy_two_complementary_statements (id : String)
    (props : InternalApiGatewayProps) :
    ∃ sA sB : PolicyStatement,
      (InternalApiGateway.construct id props).apiGateway.policy.statements
        = [sA, sB] ∧
      (InternalApiGateway.construct id props).apiGateway.policy.statements.length
        = 2 ∧
      sA.effect = Effect.DENY ∧
      sB.effect = Effect.ALLOW ∧
      sA.principals = [Principal.AnyPrincipal] ∧
      sB.principals = [Principal.AnyPrincipal] ∧
      sA.actions = ["execute-api:Invoke"] ∧
      sB.actions = ["execute-api:Invoke"] ∧
      sA.resources = ["execute-api:/*/*/*"] ∧
      sB.resources = sA.resources ∧
      sA.condition.op = ConditionOperator.StringNotEquals ∧
      sB.condition.op = ConditionOperator.StringEquals ∧
      sA.condition.key = "aws:sourceVpce" ∧
      sB.condition.key = sA.condition.key ∧
      sA.condition.value = props.vpcEndpoint.vpcEndpointId ∧
      sB.condition.value = props.vpcEndpoint.vpcEndpointId ∧
      (∀ actual : String,
        sA.condition.holdsOn actual ↔ ¬ sB.condition.holdsOn actual) := by
  refine ⟨_, _, rfl, rfl, rfl, rfl, rfl, rfl, rfl, rfl, rfl, rfl, rfl, rfl,
    rfl, rfl, rfl, rfl, fun actual => Iff.rfl⟩

/-- Claim C2: for every constructor input whose domain list has N entries,
exactly N base path mappings are created, one per domain in input order
with no deduplication, each referencing the same deployment stage of the
gateway; an empty domain list yields zero mappings because the length
equality is universal. -/
theorem one_mapping_per_domain (id : String)
    (props : InternalApiGatewayProps) :
    (InternalApiGateway.construct id props).basePathMappings.length
      = props.domains.length ∧
    (InternalApiGateway.construct id props).basePathMappings.map
        BasePathMapping.domainName
      = props.domains ∧
    (InternalApiGateway.construct id props).basePathMappings.map
        BasePathMapping.stage
      = List.replicate props.domains.length
          (InternalApiGateway.construct id props).apiGateway.deploymentStage := by
  refine ⟨?_, ?_, ?_⟩
  · simp [InternalApiGateway.construct, Function.comp_def]
  · simp [InternalApiGateway.construct, Function.comp_def]
  · simp [InternalApiGateway.construct, Function.comp_def]

/-- Claim C3: for every constructor input, the gateway resource has
endpoint type PRIVATE only, is associated with exactly the one supplied
VPC endpoint and no other, and is bound to the two-statement resource
policy document. -/
theorem gateway_private_single_endpoint (id : String)
    (props : InternalApiGatewayProps) :
    (InternalApiGateway.construct id props).apiGateway.endpointTypes
      = [EndpointType.PRIVATE] ∧
    (InternalApiGateway.construct id props).apiGateway.vpcEndpoints
      = [props.vpcEndpoint] ∧
    (InternalApiGateway.construct id props).apiGateway.policy
      = apiResourcePolicy props ∧
    (InternalApiGateway.construct id props).apiGateway.policy.statements.length
      = 2 :=
  ⟨rfl, rfl, rfl, rfl⟩

/-- Claim C4: for every constructor input, the configured stage name
string is passed through verbatim as the deploy options stage name and as
the name of the deployment stage of the gateway. -/
theorem stage_name_verbatim (id : String)
    (props : InternalApiGatewayProps) :
    (InternalApiGateway.construct id props).apiGateway.deployStageName
      = props.stage ∧
    (InternalApiGateway.construct id props).apiGateway.deploymentStage.stageName
      = props.stage :=
  ⟨rfl, rfl⟩

/-- Claim C5: every created mapping carries the one shared base path
selected by the ternary on apiBasePathMappingPath, with no per-domain
override; the ternary yields the empty string when the field is unset and
yields v1 when the field is set to v1. -/
theorem mappings_shared_base_path (id : String)
    (props : InternalApiGatewayProps) :
    (InternalApiGateway.construct id props).basePathMappings.map
        BasePathMapping.basePath
      = List.replicate props.domains.length
          (ternaryBasePath props.apiBasePathMappingPath) ∧
    ternaryBasePath none = "" ∧
    ternaryBasePath (some "v1") = "v1" := by
  refine ⟨?_, rfl, rfl⟩
  simp [InternalApiGateway.construct, Function.comp_def]

/-- Claim C6: binaryMediaTypes and minimumCompressionSize are passed
through to the gateway unmodified for every input; in particular omitting
both yields a gateway with neither configured, and supplying
application/octet-stream with 1024 yields a gateway carrying exactly
those values. -/
theorem media_and_compression_passthrough (id : String)
    (props : InternalApiGatewayProps) :
    (InternalApiGateway.construct id props).apiGateway.binaryMediaTypes
      = props.binaryMediaTypes ∧
    (InternalApiGateway.construct id props).apiGateway.minimumCompressionSize
      = props.minimumCompressionSize ∧
    (InternalApiGateway.construct id
        { props with binaryMediaTypes := none,
                     minimumCompressionSize := none
        }).apiGateway.binaryMediaTypes = none ∧
    (InternalApiGateway.construct id
        { props with binaryMediaTypes := none,
                     minimumCompressionSize := none
        }).apiGateway.minimumCompressionSize = none ∧
    (InternalApiGateway.construct id
        { props with binaryMediaTypes := some ["application/octet-stream"],
                     minimumCompressionSize := some 1024
        }).apiGateway.binaryMediaTypes = some ["application/octet-stream"] ∧
    (InternalApiGateway.construct id
        { props with binaryMediaTypes := some ["application/octet-stream"],
                     minimumCompressionSize := some 1024
        }).apiGateway.minimumCompressionSize = some 1024 :=
  ⟨rfl, rfl, rfl, rfl, rfl, rfl⟩

/-- Claim C7: each created mapping gets its construct identifier from the
identity of its own domain, in input order, and that derivation is
injective: two entries get equal identifiers exactly when they are the
same domain, so duplicate entries collide and distinct domains get
distinct identifiers. -/
theorem mapping_id_from_domain_identity (id : String)
    (props : InternalApiGatewayProps) :
    (InternalApiGateway.construct id props).basePathMappings.map
        BasePathMapping.constructId
      = props.domains.map basePathMappingId ∧
    ∀ d1 d2 : IDomainName,
      basePathMappingId d1 = basePathMappingId d2 ↔ d1 = d2 := by
  refine ⟨?_, basePathMappingId_inj⟩
  simp [InternalApiGateway.construct, Function.comp_def]

/-- Claim C8: the constructor validates nothing and handles no error
condition: it is a total function on configuration records, emitting the
resource graph for every input, an empty domain list included, and it
passes the optional fields through silently; absence of a required field
is not a representable configuration record, matching abort-at-
construction being the only failure mode. -/
theorem no_validation_total_construction (id : String)
    (props : InternalApiGatewayProps) :
    (InternalApiGateway.construct id props).basePathMappings.length
      = props.domains.length ∧
    (InternalApiGateway.construct id
        { props with domains := [] }).basePathMappings = [] ∧
    (InternalApiGateway.construct id props).apiGateway.binaryMediaTypes
      = props.binaryMediaTypes ∧
    (InternalApiGateway.construct id props).apiGateway.minimumCompressionSize
      = props.minimumCompressionSize ∧
    (InternalApiGateway.construct id props).apiGateway.deployStageName
      = props.stage := by
  refine ⟨?_, rfl, rfl, rfl, rfl⟩
  simp [InternalApiGateway.construct, Function.comp_def]

/-- Claim C9: the gateway handle is the one assigned at construction, and
every mapping references that same gateway object as its REST API and
that object deployment stage as its stage, so no mapping can point at a
different API or stage than the handle exposed to subclasses. -/
theorem mappings_reference_single_gateway (id : String)
    (props : InternalApiGatewayProps) :
    (InternalApiGateway.construct id props).apiGateway
      = mkApiGateway id props ∧
    (InternalApiGateway.construct id props).basePathMappings.map
        BasePathMapping.restApi
      = List.replicate props.domains.length
          (InternalApiGateway.construct id props).apiGateway ∧
    (InternalApiGateway.construct id props).basePathMappings.map
        BasePathMapping.stage
      = List.replicate props.domains.length
          (InternalApiGateway.construct id props).apiGateway.deploymentStage ∧
    (∀ m, m ∈ (InternalApiGateway.construct id props).basePathMappings →
      m.restApi = (InternalApiGateway.construct id props).apiGateway ∧
      m.stage = m.restApi.deploymentStage) := by
  refine ⟨rfl, ?_, ?_, ?_⟩
  · simp [InternalApiGateway.construct, Function.comp_def]
  · simp [InternalApiGateway.construct, Function.comp_def]
  · intro m hm
    simp [InternalApiGateway.construct, Function.comp_def] at hm
    obtain ⟨d, _, hd⟩ := hm
    subst hd
    exact ⟨rfl, rfl⟩

/-- Claim C10: explicitly setting apiBasePathMappingPath to the empty
string is indistinguishable from omitting it, because the source selects
the base path with a JavaScript truthiness test: two configurations that
differ only in empty-string versus unset produce identical resource
graphs. -/
theorem empty_base_path_equals_unset (id : String)
    (props : InternalApiGatewayProps) :
    InternalApiGateway.construct id
        { props with apiBasePathMappingPath := some "" }
      = InternalApiGateway.construct id
          { props with apiBasePathMappingPath := none } :=
  rfl

end CdkInternalGateway
